import Mathlib

/-!
Verification of the HealthcareDiagBot task-orchestration core.

Shallow embedding of:
  src/backend/app/connectors/base.py        (DiagnosticTask)
  src/backend/app/services/ai_service.py    (AIAnalyzer.analyze_file)
  src/backend/app/connectors/hms_connector.py (HMSConnector)
  src/backend/app/main.py                   (background_worker, manual_upload)

All Python dict results of analyze_file are modelled as a record of optional
fields (a dict with string keys); file_type and status are raw strings, as in
the source.  Collaborator effects (uuid generation, file storage, logging,
the event-loop shutdown flag, exceptions raised by the analysis or write-back
calls) are modelled as explicit parameters.
-/

namespace DiagBot

/-- Task record, from base.py lines 5-11 (pydantic model DiagnosticTask).
metadata is an open string-keyed mapping; its values are opaque strings. -/
structure DiagnosticTask where
  id : String
  patient_id : String
  file_path : String
  file_type : String
  status : String := "PENDING"
  metadata : List (String × String) := []
deriving DecidableEq, Repr

/-- Findings dict: analyze_file returns either the four-field success dict or
the one-field error dict; absent keys are none. -/
structure Findings where
  summary : Option String := none
  abnormalities : Option (List String) := none
  confidence : Option ℚ := none
  urgency : Option String := none
  error : Option String := none
deriving DecidableEq, Repr

/-- AIAnalyzer.analyze_file, ai_service.py lines 11-32.  The Python body is a
pure conditional on file_type (file_path is logged only); it is total, so the
embedding is a total function: the source can never raise. -/
def analyze_file (file_path : String) (file_type : String) : Findings :=
  if file_type = "XRAY" then
    { summary := some "Cardiomegaly not detected. Lungs appear clear."
      abnormalities := some ["None"]
      confidence := some (0.98 : ℚ)
      urgency := some "LOW" }
  else if file_type = "REPORT" then
    { summary := some "Hemoglobin levels slightly low."
      abnormalities := some ["Anemia (Mild)"]
      confidence := some (0.95 : ℚ)
      urgency := some "MEDIUM" }
  else
    { error := some "Unknown file type" }

/-- HMS connector state, hms_connector.py lines 10-17: the constructor sets
self.conn = None; the session object itself is opaque to the core. -/
structure HMSConnector where
  conn : Option Unit
deriving DecidableEq, Repr

/-- HMSConnector.__init__: conn starts as None (db_config is collaborator
configuration and never read by the core logic). -/
def HMSConnector.init : HMSConnector := { conn := none }

/-- HMSConnector.connect, lines 19-25: the body is try: pass / except: log, so
the state is unchanged and no session is ever established. -/
def HMSConnector.connect (c : HMSConnector) : HMSConnector := c

/-- The mock task literal of hms_connector.py lines 36-41. -/
def mockTask : DiagnosticTask :=
  { id := "101"
    patient_id := "P-505"
    file_path := "C:/hospital_data/patient_505_chest_xray.jpg"
    file_type := "XRAY" }

/-- HMSConnector.fetch_pending_tasks, lines 27-55: with no session it returns
the one-element mock batch; with a session it opens a cursor and returns the
(still empty) tasks list, the query logic being commented out.  Both paths
return normally rather than raising. -/
def HMSConnector.fetch_pending_tasks (c : HMSConnector) : List DiagnosticTask :=
  match c.conn with
  | none => [mockTask]
  | some _ => []

/-- HMSConnector.update_result, lines 57-64: the body logs the findings and,
when a session exists, does nothing (the UPDATE statement is commented out),
so the connector state is returned unchanged on every call. -/
def HMSConnector.update_result (c : HMSConnector) (task_id : String)
    (findings : Findings) : HMSConnector := c

/-- Observable actions of one background_worker poll cycle (main.py 48-64):
a batch fetch, an Analyze call (carrying the task object exactly as it is at
the moment of the call), and a write-back attempt. -/
inductive Event
  | fetch
  | analyzeCall (t : DiagnosticTask)
  | updateCall (task_id : String)
deriving DecidableEq, Repr

/-- The for-loop of background_worker, main.py lines 51-59, with its
collaborator effects explicit:
* flag n is the value of worker_running observed at the if-check before the
  n-th task (the flag is re-read between tasks; it can change at await points);
* A and U are the Analyze and update_result calls, which in Python may raise
  (Except.error).  An exception propagates out of the for loop to the
  try/except of lines 49-64, ending the cycle, so the remaining tasks are
  dropped; no per-task handler exists in the source.
The result is the sequence of observable actions.  No field of any task is
assigned anywhere in the loop body (in particular task.status is never
written), so each analyzeCall carries the task exactly as fetched. -/
def worker_batch (flag : ℕ → Bool) (A : DiagnosticTask → Except String Findings)
    (U : String → Findings → Except String Unit) :
    ℕ → List DiagnosticTask → List Event
  | _, [] => []
  | n, t :: ts =>
    if flag n then
      match A t with
      | .error _ => [Event.analyzeCall t]
      | .ok r =>
        match U t.id r with
        | .error _ => [Event.analyzeCall t, Event.updateCall t.id]
        | .ok _ =>
          Event.analyzeCall t :: Event.updateCall t.id ::
            worker_batch flag A U (n + 1) ts
    else []

/-- One iteration of the while-loop of background_worker, main.py 48-61: the
while condition reads worker_running (w); only when it is true does the body
fetch a batch and run the for loop over it. -/
def worker_cycle (w : Bool) (flag : ℕ → Bool)
    (A : DiagnosticTask → Except String Findings)
    (U : String → Findings → Except String Unit)
    (batch : List DiagnosticTask) : List Event :=
  if w then Event.fetch :: worker_batch flag A U 0 batch else []

/-- The Analyze call the worker actually makes (main.py line 56): the real
AIAnalyzer.analyze_file, which is total, wrapped in the exception monad. -/
def realAnalyze (t : DiagnosticTask) : Except String Findings :=
  Except.ok (analyze_file t.file_path t.file_type)

/-- The write-back the worker actually makes (main.py line 59): the real
HMSConnector.update_result on a disconnected connector never raises and only
logs; its return value is discarded by the worker. -/
def realUpdate (task_id : String) (findings : Findings) : Except String Unit :=
  Except.ok ()

/-- Response dict of the manual upload endpoint, main.py lines 87-91. -/
structure UploadResponse where
  status : String
  task_id : String
  analysis : Findings
deriving DecidableEq, Repr

/-- manual_upload, main.py lines 66-91.  Storage of the uploaded file and the
uuid are collaborator effects: saved_path is the path the artifact was written
to and fresh_id the generated uuid.  The endpoint then calls analyze_file on
the saved path and the submitted file_type and returns the response dict. -/
def manual_upload (saved_path : String) (fresh_id : String)
    (file_type : String) : UploadResponse :=
  { status := "success"
    task_id := fresh_id
    analysis := analyze_file saved_path file_type }

/-- needle is a leading block of hay (on character lists). -/
def leadsChars : List Char → List Char → Bool
  | [], _ => true
  | _ :: _, [] => false
  | c :: cs, d :: ds => c == d && leadsChars cs ds

/-- needle occurs contiguously somewhere in hay. -/
def occursChars (needle : List Char) : List Char → Bool
  | [] => leadsChars needle []
  | d :: ds => leadsChars needle (d :: ds) || occursChars needle ds

/-- sub occurs as a contiguous substring of s (used to state that a summary
mentions a phrase). -/
def mentionsSub (s sub : String) : Bool := occursChars sub.toList s.toList

/-- Trace of a run in which every dispatched task completes its pair of calls:
each Analyze call is immediately followed by the write-back attempt for the
same task. -/
def pair_trace : List DiagnosticTask → List Event
  | [] => []
  | t :: ts => Event.analyzeCall t :: Event.updateCall t.id :: pair_trace ts

/-- A second pending task, as a connector whose query logic is active (the
commented SELECT of hms_connector.py lines 46-54 has LIMIT 5) would surface
alongside task 101 in one batch. -/
def task102 : DiagnosticTask :=
  { id := "102"
    patient_id := "P-506"
    file_path := "C:/hospital_data/patient_506_chest_xray.jpg"
    file_type := "XRAY" }

/-- An Analyze call that raises for task 101 (say the model backend times out
on that artifact) and behaves as the real analyzer otherwise. -/
def failOn101 (t : DiagnosticTask) : Except String Findings :=
  if t.id = "101" then Except.error "model backend timeout" else realAnalyze t

/-- A worker_running history in which the shutdown signal lands after the
first task of the batch: the flag reads true at the check before task 0 and
false at every later check. -/
def wflag : ℕ → Bool := fun n => n == 0

/-- Claim C2 (counterexample): the claim as stated is false on the code at the
concrete input (artifact "scan.img", kind CT): analyze_file returns the error
message "Unknown file type" with a capital U (ai_service.py line 32), not the
claimed lowercase "unknown file type". -/
theorem analyze_unknown_message_case :
    analyze_file "scan.img" "CT" ≠ { error := some "unknown file type" } := by
  intro h
  exact absurd (congrArg Findings.error h) (by decide)

/-- Claim C2 (amended): for every artifact reference and every kind other
than XRAY and REPORT, analyze_file returns exactly the one-key findings
mapping with error message "Unknown file type"; the function is total in the
embedding because the Python body is a pure conditional, so it never raises. -/
theorem analyze_unknown_kind_error (file_path file_type : String)
    (h1 : file_type ≠ "XRAY") (h2 : file_type ≠ "REPORT") :
    analyze_file file_path file_type = { error := some "Unknown file type" } := by
  unfold analyze_file
  rw [if_neg h1, if_neg h2]

/-- Claim C2 (witness): the amended theorem evaluated at kind ECG. -/
theorem analyze_unknown_kind_error_witness :
    ("ECG" ≠ "XRAY") ∧ ("ECG" ≠ "REPORT") ∧
      analyze_file "ecg_trace.csv" "ECG" = { error := some "Unknown file type" } :=
  ⟨by decide, by decide,
    analyze_unknown_kind_error "ecg_trace.csv" "ECG" (by decide) (by decide)⟩

/-- Claim C4 (counterexample): the fresh connector has no session, yet
fetch_pending_tasks returns the one-element mock batch, not the empty
sequence the claim states (hms_connector.py lines 33-42). -/
theorem fetch_disconnected_nonempty :
    HMSConnector.init.conn = none ∧
      HMSConnector.init.fetch_pending_tasks ≠ ([] : List DiagnosticTask) :=
  ⟨rfl, by decide⟩

/-- Claim C4 (amended): whenever no implementation is connected, the fetch
returns normally (not an error) with the deterministic one-element mock
batch; the empty sequence arises only on the connected path, where the query
logic is stubbed out. -/
theorem fetch_disconnected_mock_batch (c : HMSConnector) (h : c.conn = none) :
    c.fetch_pending_tasks = [mockTask] := by
  cases c with
  | mk conn => cases h; rfl

/-- Claim C4 (witness): the amended theorem evaluated on the freshly
constructed connector. -/
theorem fetch_disconnected_mock_batch_witness :
    HMSConnector.init.conn = none ∧
      HMSConnector.init.fetch_pending_tasks = [mockTask] :=
  ⟨rfl, fetch_disconnected_mock_batch HMSConnector.init rfl⟩

/-- Claim C5: on any connector without an active session,
fetch_pending_tasks returns the deterministic mock batch of exactly one task
with id "101", patient_id "P-505" and kind XRAY. -/
theorem fetch_disconnected_single_mock (c : HMSConnector) (h : c.conn = none) :
    c.fetch_pending_tasks = [mockTask] ∧ mockTask.id = "101" ∧
      mockTask.patient_id = "P-505" ∧ mockTask.file_type = "XRAY" := by
  cases c with
  | mk conn => cases h; exact ⟨rfl, rfl, rfl, rfl⟩

/-- Claim C5 (witness): the theorem evaluated on the freshly constructed
connector, whose conn field is none. -/
theorem fetch_disconnected_single_mock_witness :
    HMSConnector.init.conn = none ∧
      (HMSConnector.init.fetch_pending_tasks = [mockTask] ∧ mockTask.id = "101" ∧
        mockTask.patient_id = "P-505" ∧ mockTask.file_type = "XRAY") :=
  ⟨rfl, fetch_disconnected_single_mock HMSConnector.init rfl⟩

/-- Claim C7: for every artifact reference and kind XRAY or REPORT,
analyze_file returns findings whose confidence is a rational in the closed
interval from 0 to 1 and whose urgency is LOW, MEDIUM or HIGH. -/
theorem analyze_known_confidence_urgency (file_path file_type : String)
    (h : file_type = "XRAY" ∨ file_type = "REPORT") :
    ∃ q u, (analyze_file file_path file_type).confidence = some q ∧
      0 ≤ q ∧ q ≤ 1 ∧ (analyze_file file_path file_type).urgency = some u ∧
      (u = "LOW" ∨ u = "MEDIUM" ∨ u = "HIGH") := by
  rcases h with h | h <;> subst h
  · exact ⟨0.98, "LOW", rfl, by norm_num, by norm_num, rfl, Or.inl rfl⟩
  · exact ⟨0.95, "MEDIUM", rfl, by norm_num, by norm_num, rfl, Or.inr (Or.inl rfl)⟩

/-- Claim C7 (witness): the theorem evaluated at kind XRAY. -/
theorem analyze_known_confidence_urgency_witness :
    ("XRAY" = "XRAY" ∨ "XRAY" = "REPORT") ∧
      (∃ q u, (analyze_file "scan.jpg" "XRAY").confidence = some q ∧
        0 ≤ q ∧ q ≤ 1 ∧ (analyze_file "scan.jpg" "XRAY").urgency = some u ∧
        (u = "LOW" ∨ u = "MEDIUM" ∨ u = "HIGH")) :=
  ⟨Or.inl rfl, analyze_known_confidence_urgency "scan.jpg" "XRAY" (Or.inl rfl)⟩

/-- Claim C8: for any storage path and generated task id, submitting an XRAY
artifact through the manual path yields a success response whose analysis has
a summary mentioning that cardiomegaly was not detected, abnormalities
exactly the sequence containing only "None", confidence exactly 0.98 and
urgency exactly "LOW". -/
theorem manual_upload_xray_response (saved_path fresh_id : String) :
    (manual_upload saved_path fresh_id "XRAY").status = "success" ∧
      (∃ s, (manual_upload saved_path fresh_id "XRAY").analysis.summary = some s ∧
        mentionsSub s "Cardiomegaly not detected" = true) ∧
      (manual_upload saved_path fresh_id "XRAY").analysis.abnormalities =
        some ["None"] ∧
      (manual_upload saved_path fresh_id "XRAY").analysis.confidence =
        some (0.98 : ℚ) ∧
      (manual_upload saved_path fresh_id "XRAY").analysis.urgency = some "LOW" := by
  refine ⟨rfl, ⟨"Cardiomegaly not detected. Lungs appear clear.", rfl, ?_⟩,
    rfl, rfl, rfl⟩
  decide

/-- Claim C9: update_result leaves the connector state unchanged on every
call (hms_connector.py lines 57-64 only log; the store write is commented
out), so a second call with the same task id and findings leaves exactly the
state of the first call: idempotent, and no duplicate entry can arise. -/
theorem update_result_idempotent (c : HMSConnector) (task_id : String)
    (findings : Findings) :
    (c.update_result task_id findings).update_result task_id findings =
        c.update_result task_id findings ∧
      c.update_result task_id findings = c :=
  ⟨rfl, rfl⟩

/-- Claim C10: the findings returned by analyze_file depend only on the kind
argument, never on the artifact reference, and the function is a pure
function of its arguments, hence deterministic. -/
theorem analyze_depends_only_on_kind (p1 p2 file_type : String) :
    analyze_file p1 file_type = analyze_file p2 file_type := rfl

/-- Claim C1 (code_bug evaluation): with a batch of two pending tasks in
which the Analyze call for the first task (id 101) raises, the worker trace
is the single aborted Analyze call: the exception escapes the for loop into
the cycle-level try/except of main.py lines 49-64, so task 102 is neither
analyzed nor written back, contradicting the per-task failure isolation the
specification requires. -/
theorem batch_aborts_after_failure :
    worker_batch (fun _ => true) failOn101 realUpdate 0 [mockTask, task102] =
        [Event.analyzeCall mockTask] ∧
      Event.analyzeCall task102 ∉
        worker_batch (fun _ => true) failOn101 realUpdate 0 [mockTask, task102] ∧
      Event.updateCall "102" ∉
        worker_batch (fun _ => true) failOn101 realUpdate 0 [mockTask, task102] :=
  ⟨rfl, by decide, by decide⟩

/-- Claim C3 (counterexample): the worker dispatches the mock task while its
status field still reads "PENDING": the status is never set to IN_PROGRESS
before the Analyze call (and never to COMPLETED or FAILED afterwards),
because main.py lines 48-64 contain no assignment to task.status. -/
theorem status_not_marked_in_progress :
    Event.analyzeCall mockTask ∈
        worker_batch (fun _ => true) realAnalyze realUpdate 0 [mockTask] ∧
      mockTask.status = "PENDING" ∧ mockTask.status ≠ "IN_PROGRESS" :=
  ⟨by decide, rfl, by decide⟩

/-- Every Analyze call recorded in a batch trace is for a task of the fetched
batch, carried unchanged. -/
lemma worker_batch_analyzeCall_mem (flag : ℕ → Bool)
    (A : DiagnosticTask → Except String Findings)
    (U : String → Findings → Except String Unit) (t : DiagnosticTask) :
    ∀ (n : ℕ) (batch : List DiagnosticTask),
      Event.analyzeCall t ∈ worker_batch flag A U n batch → t ∈ batch := by
  intro n batch
  induction batch generalizing n with
  | nil => simp [worker_batch]
  | cons b bs ih =>
    intro hm
    by_cases hf : flag n
    · rcases hA : A b with e | r
      · simp [worker_batch, hf, hA] at hm
        simp [hm]
      · rcases hU : U b.id r with e | u
        · simp [worker_batch, hf, hA, hU] at hm
          simp [hm]
        · simp only [worker_batch, hf, if_true, hA, hU, List.mem_cons] at hm
          rcases hm with h1 | h2 | h3
          · simp [Event.analyzeCall.inj h1]
          · exact absurd h2 (by simp)
          · exact List.mem_cons_of_mem _ (ih (n + 1) h3)
    · simp [worker_batch, hf] at hm

/-- A task is dispatched at most as often as it occurs in the fetched batch:
no retry happens inside one cycle. -/
lemma worker_batch_count_le (flag : ℕ → Bool)
    (A : DiagnosticTask → Except String Findings)
    (U : String → Findings → Except String Unit) (t : DiagnosticTask) :
    ∀ (n : ℕ) (batch : List DiagnosticTask),
      (worker_batch flag A U n batch).count (Event.analyzeCall t) ≤
        batch.count t := by
  intro n batch
  induction batch generalizing n with
  | nil => simp [worker_batch]
  | cons b bs ih =>
    by_cases hf : flag n
    · rcases hA : A b with e | r
      · simp only [worker_batch, hf, if_true, hA]
        by_cases hb : t = b <;>
          simp [List.count_cons, hb]
      · rcases hU : U b.id r with e | u
        · simp only [worker_batch, hf, if_true, hA, hU]
          by_cases hb : t = b <;>
            simp [List.count_cons, hb]
        · simp only [worker_batch, hf, if_true, hA, hU]
          have hrec := ih (n + 1)
          by_cases hb : t = b
          · subst hb
            simp only [List.count_cons]
            simp
            omega
          · simp [List.count_cons, hb]
            omega
    · simp [worker_batch, hf]

/-- Claim C3 (amended): the worker never mutates any field of a task: every
Analyze call in a cycle trace carries a task exactly as fetched, status field
included (so a dispatched task keeps the status it was fetched with —
trivially no backward transition), and each task is dispatched at most as
often as it occurs in the fetched batch (no retry within the cycle). -/
theorem worker_preserves_task_fields (flag : ℕ → Bool)
    (A : DiagnosticTask → Except String Findings)
    (U : String → Findings → Except String Unit)
    (n : ℕ) (batch : List DiagnosticTask) (t : DiagnosticTask)
    (hm : Event.analyzeCall t ∈ worker_batch flag A U n batch) :
    t ∈ batch ∧
      (worker_batch flag A U n batch).count (Event.analyzeCall t) ≤
        batch.count t :=
  ⟨worker_batch_analyzeCall_mem flag A U t n batch hm,
    worker_batch_count_le flag A U t n batch⟩

/-- Claim C3 (amended, witness): the amended theorem evaluated on the real
analyzer and write-back over a two-task batch. -/
theorem worker_preserves_task_fields_witness :
    (Event.analyzeCall mockTask ∈
        worker_batch (fun _ => true) realAnalyze realUpdate 0
          [mockTask, task102]) ∧
      (mockTask ∈ [mockTask, task102] ∧
        (worker_batch (fun _ => true) realAnalyze realUpdate 0
              [mockTask, task102]).count (Event.analyzeCall mockTask) ≤
          ([mockTask, task102] : List DiagnosticTask).count mockTask) :=
  ⟨by decide,
    worker_preserves_task_fields (fun _ => true) realAnalyze realUpdate 0
      [mockTask, task102] mockTask (by decide)⟩

/-- No batch fetch is ever performed inside the for loop over a batch: the
fetch happens only at the head of a cycle, guarded by the while condition. -/
lemma fetch_not_in_worker_batch (flag : ℕ → Bool)
    (A : DiagnosticTask → Except String Findings)
    (U : String → Findings → Except String Unit) :
    ∀ (n : ℕ) (batch : List DiagnosticTask),
      Event.fetch ∉ worker_batch flag A U n batch := by
  intro n batch
  induction batch generalizing n with
  | nil => simp [worker_batch]
  | cons b bs ih =>
    by_cases hf : flag n
    · rcases hA : A b with e | r
      · simp [worker_batch, hf, hA]
      · rcases hU : U b.id r with e | u
        · simp [worker_batch, hf, hA, hU]
        · simp only [worker_batch, hf, if_true, hA, hU, List.mem_cons]
          push_neg
          exact ⟨by simp, by simp, ih (n + 1)⟩
    · simp [worker_batch, hf]

/-- When the Analyze and write-back calls return normally and the
worker_running flag reads true before each of the first k tasks and false at
the check before task k, the batch trace is exactly the completed
Analyze/write-back pairs of the first k tasks. -/
lemma worker_batch_shutdown_aux (flag : ℕ → Bool)
    (A : DiagnosticTask → Except String Findings)
    (U : String → Findings → Except String Unit)
    (hA : ∀ t, ∃ r, A t = Except.ok r)
    (hU : ∀ i f, U i f = Except.ok ()) :
    ∀ (batch : List DiagnosticTask) (k n : ℕ), k ≤ batch.length →
      (∀ i, i < k → flag (n + i) = true) → flag (n + k) = false →
      worker_batch flag A U n batch = pair_trace (batch.take k) := by
  intro batch
  induction batch with
  | nil =>
    intro k n hk _ _
    have hk0 : k = 0 := Nat.le_zero.mp (by simpa using hk)
    subst hk0
    rfl
  | cons b bs ih =>
    intro k n hk ht hfalse
    cases k with
    | zero =>
      have hf : flag n = false := by simpa using hfalse
      simp [worker_batch, hf, pair_trace]
    | succ k =>
      have hf : flag n = true := by simpa using ht 0 (Nat.succ_pos k)
      obtain ⟨r, hr⟩ := hA b
      have hu := hU b.id r
      have hk' : k ≤ bs.length := by
        simp only [List.length_cons] at hk
        omega
      have hrec : worker_batch flag A U (n + 1) bs = pair_trace (bs.take k) := by
        refine ih k (n + 1) hk' (fun i hi => ?_) ?_
        · rw [show n + 1 + i = n + (i + 1) from by omega]
          exact ht (i + 1) (by omega)
        · rw [show n + 1 + k = n + (k + 1) from by omega]
          exact hfalse
      simp [worker_batch, hf, hr, hu, pair_trace, hrec]

/-- Claim C6: if the Analyze and write-back calls return normally and the
shutdown signal is observed at the flag check before task k of the batch
(the flag having read true at each earlier check), the cycle trace is exactly
the completed Analyze/write-back pairs of tasks 0..k-1: the in-flight task
finishes both calls before the loop exits, the later tasks are not started,
no fetch event occurs anywhere inside the batch loop, and a cycle whose while
condition reads false performs no fetch at all.  The flag is consulted before
every task, so the signal is observed between tasks within a batch. -/
theorem shutdown_midcycle (flag : ℕ → Bool)
    (A : DiagnosticTask → Except String Findings)
    (U : String → Findings → Except String Unit)
    (hA : ∀ t, ∃ r, A t = Except.ok r) (hU : ∀ i f, U i f = Except.ok ())
    (batch : List DiagnosticTask) (k : ℕ) (hk : k ≤ batch.length)
    (ht : ∀ i, i < k → flag i = true) (hf : flag k = false) :
    worker_batch flag A U 0 batch = pair_trace (batch.take k) ∧
      Event.fetch ∉ worker_batch flag A U 0 batch ∧
      worker_cycle false flag A U batch = [] := by
  refine ⟨?_, fetch_not_in_worker_batch flag A U 0 batch, rfl⟩
  exact worker_batch_shutdown_aux flag A U hA hU batch k 0 hk
    (fun i hi => by simpa using ht i hi) (by simpa using hf)

/-- Claim C6 (witness): the theorem evaluated on the real analyzer and
write-back, a two-task batch and a flag history whose shutdown signal lands
between task 0 and task 1, so the cut is strictly inside the batch. -/
theorem shutdown_midcycle_witness :
    ((∀ t, ∃ r, realAnalyze t = Except.ok r) ∧
      (∀ i f, realUpdate i f = Except.ok ()) ∧
      1 ≤ ([mockTask, task102] : List DiagnosticTask).length ∧
      (∀ i, i < 1 → wflag i = true) ∧ wflag 1 = false) ∧
    (worker_batch wflag realAnalyze realUpdate 0 [mockTask, task102] =
        pair_trace (([mockTask, task102] : List DiagnosticTask).take 1) ∧
      Event.fetch ∉ worker_batch wflag realAnalyze realUpdate 0
        [mockTask, task102] ∧
      worker_cycle false wflag realAnalyze realUpdate [mockTask, task102] = []) :=
  ⟨⟨fun t => ⟨analyze_file t.file_path t.file_type, rfl⟩, fun _ _ => rfl,
      by decide,
      fun i hi => by
        have h0 : i = 0 := by omega
        subst h0
        rfl,
      rfl⟩,
    shutdown_midcycle wflag realAnalyze realUpdate
      (fun t => ⟨analyze_file t.file_path t.file_type, rfl⟩) (fun _ _ => rfl)
      [mockTask, task102] 1 (by decide)
      (fun i hi => by
        have h0 : i = 0 := by omega
        subst h0
        rfl)
      rfl⟩

end DiagBot
